import Mathlib

/-!
# Verification of the codecell-runner execution core

Shallow embedding of the Go sources of `Pelfox/codecell-runner`:

* `internal/services/containers_service.go` — container creation options,
  kill/remove, language lookup;
* `internal/services/logs_service.go` — the I/O attach pump and the closing
  discipline of the stdout/stderr line channels;
* `internal/server.go` — the `Run` streaming handler (pre-loop phases, the
  select loop relaying stdout/stderr/exit/error/timeout) and the `Stop`
  handler, together with the mutex-guarded active-session registry.

Concurrency is embedded by making the select loop's nondeterminism explicit:
a `schedule` lists, in order, which ready branch the select statement fires.
All definitions are executable and proofs quantify over schedules.
-/

namespace CodecellRunner

/-! ## Technology registry (`internal/executor`) -/

/-- `executor.Technology`: per-language descriptor (image, command, and the
workspace files produced by `WriteSourceCode` via `pkg.CreateTar`). -/
structure Technology where
  getImage : String
  getCommand : List String
  writeSourceCode : String → List (String × String)

/-- `executor.DotNetTechnology` (`internal/executor/types.go` second half):
image `codecell/dotnet`, command `dotnet run`, and a tar with
`Runner.csproj` (fixed project file) and `Program.cs` (the source code). -/
def projectConfigContents : String :=
  "<Project Sdk=\"Microsoft.NET.Sdk\"> net10.0 Exe </Project>"

def DotNetTechnology : Technology :=
  { getImage := "codecell/dotnet"
    getCommand := ["dotnet", "run"]
    writeSourceCode := fun sourceCode =>
      [("Runner.csproj", projectConfigContents), ("Program.cs", sourceCode)] }

/-- `imagesMapping` (`containers_service.go` line 14): only `dotnet` is
registered. -/
def imagesMapping : String → Option Technology := fun language =>
  if language = "dotnet" then some DotNetTechnology else none

/-! ## Container creation options (`containers_service.go` lines 36–108) -/

/-- `units.Ulimit`. -/
structure Ulimit where
  name : String
  soft : Int
  hard : Int
deriving DecidableEq

/-- `container.Resources` (the fields set by `CreateContainer`). -/
structure Resources where
  memory : Int
  memorySwap : Int
  nanoCPUs : Int
  pidsLimit : Int
  ulimits : List Ulimit
deriving DecidableEq

/-- `container.HostConfig` (the fields set by `CreateContainer`). -/
structure HostConfig where
  ipcMode : String
  init : Bool
  readonlyRootfs : Bool
  tmpfs : List (String × String)
  networkMode : String
  autoRemove : Bool
  capDrop : List String
  securityOpt : List String
  maskedPaths : List String
  readonlyPaths : List String
  resources : Resources
  storageOpt : List (String × String)
deriving DecidableEq

/-- `container.Config` (the fields set by `CreateContainer`). -/
structure ContainerConfig where
  user : String
  attachStdout : Bool
  attachStderr : Bool
  env : List String
  cmd : List String
  workingDir : String
  networkDisabled : Bool
  openStdin : Bool
  stdinOnce : Bool
  attachStdin : Bool
deriving DecidableEq

/-- `client.ContainerCreateOptions`. -/
structure ContainerCreateOptions where
  config : ContainerConfig
  hostConfig : HostConfig
  image : String
deriving DecidableEq

/-- The options literal built by `ContainersService.CreateContainer`
(`containers_service.go` lines 36–108), as a function of the resolved
technology. -/
def containerOptions (technology : Technology) : ContainerCreateOptions :=
  { config :=
      { user := "runner"
        attachStdout := true
        attachStderr := true
        env := ["HOME=/tmp", "TZ=Europe/Moscow"]
        cmd := technology.getCommand
        workingDir := "/workspace"
        networkDisabled := true
        openStdin := true
        stdinOnce := true
        attachStdin := true }
    hostConfig :=
      { ipcMode := "none"
        init := true
        readonlyRootfs := true
        tmpfs := [("/tmp", "rw,noexec,nosuid,size=64m")]
        networkMode := "none"
        autoRemove := true
        capDrop := ["ALL"]
        securityOpt := ["no-new-privileges"]
        maskedPaths :=
          ["/proc/acpi", "/proc/kcore", "/proc/keys", "/proc/latency_stats",
           "/proc/timer_list", "/proc/timer_stats", "/proc/sched_debug",
           "/proc/scsi", "/sys/firmware", "/sys/kernel/debug",
           "/sys/kernel/tracing"]
        readonlyPaths :=
          ["/proc/asound", "/proc/bus", "/proc/fs", "/proc/irq",
           "/proc/sys", "/proc/sysrq-trigger"]
        resources :=
          { memory := 512 * 1024 * 1024
            memorySwap := 512 * 1024 * 1024
            nanoCPUs := 1000000000
            pidsLimit := 64
            ulimits :=
              [{ name := "nofile", soft := 1024, hard := 1024 },
               { name := "fsize", soft := 100 * 1024 * 1024,
                 hard := 100 * 1024 * 1024 }] }
        storageOpt := [("size", "512M")] }
    image := technology.getImage }

/-! ## I/O attach pump (`logs_service.go` lines 35–99)

`AttachIO` starts one outer goroutine that defers `close(outCh)`,
`close(errCh)` and `resp.Close()`, spawns a scanner goroutine per stream
(each finishing when its byte stream reaches end-of-input), and blocks in
`wg.Wait()` until BOTH scanners are done; only then do the deferred closes
run.  We model time as abstract instants: `stdoutEOF` / `stderrEOF` are the
instants the stdout / stderr byte streams reach end-of-input (= scanner
completion), and the close instants of the two channels follow the deferred
structure of the code. -/

/-- Instant at which `wg.Wait()` in `AttachIO`'s outer goroutine returns:
both scanners must have finished. -/
def wgWaitTime (stdoutEOF stderrEOF : Nat) : Nat := max stdoutEOF stderrEOF

/-- Instant at which `outCh` (the stdout line channel) is closed: the
deferred `close(outCh)` runs after `wg.Wait()` returns. -/
def outChCloseTime (stdoutEOF stderrEOF : Nat) : Nat :=
  wgWaitTime stdoutEOF stderrEOF

/-- Instant at which `errCh` (the stderr line channel) is closed: the
deferred `close(errCh)` runs after `wg.Wait()` returns. -/
def errChCloseTime (stdoutEOF stderrEOF : Nat) : Nat :=
  wgWaitTime stdoutEOF stderrEOF

/-- Modelled from the spec (§4.2): "Each output sequence is closed
(signaled as exhausted) when its underlying byte stream reaches
end-of-input, independent of the other" — the stdout channel would close at
the stdout end-of-input instant, whatever the stderr instant is. -/
def outChCloseTimeSpec (stdoutEOF _stderrEOF : Nat) : Nat := stdoutEOF

/-! ## Timeout setup (`server.go` lines 44–46)

`timeout := time.Duration(request.TimeoutSeconds) * time.Second` followed by
`context.WithTimeout(stream.Context(), timeout)`.  Durations are modelled in
nanoseconds (`time.Second = 1e9 ns`); `context.WithTimeout` sets the
absolute deadline `now + timeout` unconditionally — there is no branch
rejecting or clamping a non-positive value, so a non-positive timeout yields
an already-expired context. -/

/-- The timeout duration computed on `Run` entry, in nanoseconds. -/
def runTimeout (timeoutSeconds : Int) : Int := timeoutSeconds * 1000000000

/-- The absolute deadline installed by `context.WithTimeout`: `Run` always
proceeds with `now + timeout`, for every value of `timeoutSeconds`. -/
def runDeadline (now timeoutSeconds : Int) : Int := now + runTimeout timeoutSeconds

/-! ## Active-session registry (`server.go` lines 26–28)

`requests : map[string]string` (request ID → container ID) and
`cancels : map[string]context.CancelFunc`, both guarded by the single
`mutex`.  Cancel functions are modelled by their presence. -/

/-- The two maps of `RunnerServer`, as looked up by request ID. -/
structure Registry where
  requests : String → Option String
  cancels : String → Option Unit

/-- The maps as initialised by `NewRunnerServer`: both empty. -/
def emptyRegistry : Registry :=
  { requests := fun _ => none, cancels := fun _ => none }

/-- The critical section at `server.go` lines 92–95: store the container ID
and the cancel function under the one mutex. -/
def registerSession (reg : Registry) (requestID containerID : String) : Registry :=
  { requests := fun k => if k = requestID then some containerID else reg.requests k
    cancels := fun k => if k = requestID then some () else reg.cancels k }

/-- The critical section at `server.go` lines 72–75 (deferred teardown):
`delete(s.requests, id); delete(s.cancels, id)` under the one mutex. -/
def unregisterSession (reg : Registry) (requestID : String) : Registry :=
  { requests := fun k => if k = requestID then none else reg.requests k
    cancels := fun k => if k = requestID then none else reg.cancels k }

/-! ## Kill and Stop (`containers_service.go` lines 150–157, `server.go`
lines 225–259) -/

/-- Errors the container runtime can return from `ContainerKill`: a
"no such container" (not-found) error for an already-exited/removed
container, or any other error. -/
inductive DockerErr where
  | noSuchContainer
  | other (message : String)
deriving DecidableEq

/-- `ContainersService.KillContainer`: issues `ContainerKill(SIGKILL)` and
returns the runtime's error unchanged — `_, err := ...ContainerKill(...);
return err`, with no filtering of not-found errors. -/
def KillContainer (killResult : Option DockerErr) : Option DockerErr :=
  killResult

/-- Result of `RunnerServer.Stop`. -/
inductive StopResult where
  | notFound
  | internalError (e : DockerErr)
  | ok (cancelled : Bool)
deriving DecidableEq

/-- `RunnerServer.Stop` (`server.go` lines 225–259): look up both maps under
the mutex; `NotFound` if the request ID is absent from `requests`; on
`force`, kill the container and turn any kill error into `Internal`;
otherwise call the cancel function when present and return success.
`killResult` is the environment's outcome for the `ContainerKill` call. -/
def Stop (reg : Registry) (requestID : String) (force : Bool)
    (killResult : Option DockerErr) : StopResult :=
  match reg.requests requestID with
  | none => .notFound
  | some _ =>
    if force then
      match KillContainer killResult with
      | some e => .internalError e
      | none => .ok false
    else
      .ok (reg.cancels requestID).isSome

/-! ## Outbound events (`generated` RunResponseMessage, as used by `Run`) -/

/-- `v1.MessageLevel`. -/
inductive MessageLevel where
  | INFO
  | STDOUT
  | STDERR
  | ERROR
  | STATISTICS
  | EXIT_CODE
deriving DecidableEq

/-- One message sent on the `Run` response stream (the `requestId` field is
the same constant for a whole session and is omitted). -/
structure RunResponseMessage where
  level : MessageLevel
  message : String
deriving DecidableEq

/-- Docker-daemon calls issued by a session, in order. -/
inductive Eff where
  | create
  | copyWorkspace
  | start
  | kill
  | remove
deriving DecidableEq

/-- `ContainersService.CreateContainer` (`containers_service.go` lines
30–127): resolve the language in `imagesMapping` before any daemon call;
then `ContainerCreate`; then `WriteSourceCode` (a `pkg.CreateTar` over an
in-memory buffer, which cannot fail) and `CopyToContainer`, whose error is
returned together with the already-created container's ID.  `dockerCreate`
and `copyErr` are the environment's outcomes for the two daemon calls. -/
def CreateContainer (language : String) (dockerCreate : Except String String)
    (copyErr : Option String) : Except String String × List Eff :=
  match imagesMapping language with
  | none => (.error "the specified language is not supported", [])
  | some _ =>
    match dockerCreate with
    | .error e => (.error e, [.create])
    | .ok containerID =>
      match copyErr with
      | some e => (.error e, [.create, .copyWorkspace])
      | none => (.ok containerID, [.create, .copyWorkspace])

/-! ## The select loop of `Run` (`server.go` lines 156–222)

The loop waits on `ctx.Done()`, the stdout and stderr line channels, the
wait-error channel and the exit-status channel, while
`stdoutChannel != nil || stderrChannel != nil || statusChannel != nil`.
Its nondeterminism is made explicit by a schedule: the ordered list of
select branches that fire.  A scheduled branch whose channel has already
been set to `nil` cannot fire in Go and is skipped. -/

/-- One firing of a select branch. -/
inductive LoopEvent where
  | ctxDone
  | stdoutMsg (line : String)
  | stdoutClosed
  | stderrMsg (line : String)
  | stderrClosed
  | waitErr (e : Option String)
  | exitStatus (code : Int)
deriving DecidableEq

/-- Which of the loop's channels are still non-`nil`. -/
structure LoopState where
  stdoutOpen : Bool
  stderrOpen : Bool
  statusOpen : Bool
  errorOpen : Bool
deriving DecidableEq

/-- The loop guard `stdoutChannel != nil || stderrChannel != nil ||
statusChannel != nil`. -/
def LoopState.active (st : LoopState) : Bool :=
  st.stdoutOpen || st.stderrOpen || st.statusOpen

/-- All four channels as set up right before the loop. -/
def initialLoopState : LoopState :=
  { stdoutOpen := true, stderrOpen := true, statusOpen := true, errorOpen := true }

/-- How a session ends: the loop guard became false (`completed`), the
timeout branch returned (`timedOut`), an error was returned (`errored`), or
the schedule ran out with the loop still waiting (`blocked`). -/
inductive Outcome where
  | completed
  | timedOut
  | errored
  | blocked
deriving DecidableEq

/-- The event sent on the `ctx.Done()` branch. -/
def timeoutMessage : RunResponseMessage :=
  { level := .ERROR, message := "Execution timed out" }

/-- The event sent on the exit-status branch. -/
def exitCodeMessage (code : Int) : RunResponseMessage :=
  { level := .EXIT_CODE, message := "Container has exited with code " ++ toString code }

/-- What the loop produces: the relayed messages, the daemon calls, and how
the loop ended. -/
structure LoopResult where
  trace : List RunResponseMessage
  effs : List Eff
  outcome : Outcome
deriving DecidableEq

/-- Prepend one relayed message to a loop result. -/
def LoopResult.push (m : RunResponseMessage) (r : LoopResult) : LoopResult :=
  { r with trace := m :: r.trace }

/-- The select loop.  `ctx.Done()`: kill the container, send the timeout
error, return `ctx.Err()`.  Stdout/stderr: relay the line, or set the
channel to `nil` when it is closed.  Wait error: a non-nil error is sent and
returned; a nil one is ignored.  Exit status: send the exit code and set
both the status and the error channel to `nil`. -/
def runLoop (st : LoopState) : List LoopEvent → LoopResult
  | [] => { trace := [], effs := [],
            outcome := if st.active then .blocked else .completed }
  | ev :: rest =>
    if st.active then
      match ev with
      | .ctxDone => { trace := [timeoutMessage], effs := [.kill], outcome := .timedOut }
      | .stdoutMsg line =>
        if st.stdoutOpen then
          .push { level := .STDOUT, message := line } (runLoop st rest)
        else runLoop st rest
      | .stdoutClosed =>
        if st.stdoutOpen then runLoop { st with stdoutOpen := false } rest
        else runLoop st rest
      | .stderrMsg line =>
        if st.stderrOpen then
          .push { level := .STDERR, message := line } (runLoop st rest)
        else runLoop st rest
      | .stderrClosed =>
        if st.stderrOpen then runLoop { st with stderrOpen := false } rest
        else runLoop st rest
      | .waitErr e =>
        if st.errorOpen then
          match e with
          | some msg =>
            { trace := [{ level := .ERROR, message := msg }], effs := [],
              outcome := .errored }
          | none => runLoop st rest
        else runLoop st rest
      | .exitStatus code =>
        if st.statusOpen then
          .push (exitCodeMessage code)
            (runLoop { st with statusOpen := false, errorOpen := false } rest)
        else runLoop st rest
    else { trace := [], effs := [], outcome := .completed }

/-! ## The full `Run` handler (`server.go` lines 43–223) -/

/-- The environment of one `Run` invocation: the request fields and the
outcomes of the fallible external calls. -/
structure RunEnv where
  language : String
  sourceCode : String
  timeoutSeconds : Int
  stdin : List String
  dockerCreate : Except String String
  copyErr : Option String
  attachErr : Option String
  startErr : Option String
  stdinWriteErr : Option (Nat × String)
  schedule : List LoopEvent

/-- The stdin loop (`server.go` lines 131–142): `io.WriteString(stdin,
line+"\n")` for each provided line in order, stopping at the first failing
write.  Returns the strings actually written and the failing write's error,
if any. -/
def writeStdinLines : List String → Option (Nat × String) → List String × Option String
  | [], _ => ([], none)
  | _line :: _rest, some (0, e) => ([], some e)
  | line :: rest, some (n + 1, e) =>
    ((line ++ "\n") :: (writeStdinLines rest (some (n, e))).1,
     (writeStdinLines rest (some (n, e))).2)
  | line :: rest, none =>
    ((line ++ "\n") :: (writeStdinLines rest none).1, (writeStdinLines rest none).2)

/-- The deferred teardown (`server.go` lines 60–76): under the mutex, look
the container up in `requests`; if present, `RemoveContainer` it; then
delete the request ID from both maps under the mutex. -/
def teardown (reg : Registry) (requestID : String) : Registry × List Eff :=
  match reg.requests requestID with
  | some _ => (unregisterSession reg requestID, [.remove])
  | none => (unregisterSession reg requestID, [])

/-- The first event of every session (`server.go` line 49). -/
def infoStarting : RunResponseMessage :=
  { level := .INFO, message := "Starting up the container..." }

/-- The event sent after successful creation (`server.go` line 97). -/
def infoCreated : RunResponseMessage :=
  { level := .INFO, message := "Runner container is created" }

/-- Everything observable about one finished `Run` invocation. -/
structure SessionResult where
  trace : List RunResponseMessage
  effs : List Eff
  outcome : Outcome
  registry : Registry
  stdinWritten : List String
  halfClosed : Bool

/-- `RunnerServer.Run` (`server.go` lines 43–223), phase by phase: send the
starting `Info`; `CreateContainer` (on failure send `Error` and return);
register the session in both maps; send the created `Info`; `AttachIO` (on
failure send `Error` and return); `StartContainer` (on failure send `Error`
and return); write the stdin lines (on failure send `Error` and return);
`CloseWrite` the hijacked connection (the half-close; its error is only
logged); then run the select loop.  The deferred teardown runs on every
path.  Stream sends are modelled as succeeding (a failing send is a client
disconnect, outside the success/timeout/error paths). -/
def runSession (env : RunEnv) (requestID : String) (reg : Registry) : SessionResult :=
  match (CreateContainer env.language env.dockerCreate env.copyErr).1 with
  | .error e =>
    { trace := [infoStarting,
                { level := .ERROR, message := "Failed to create the container: " ++ e }]
      effs := (CreateContainer env.language env.dockerCreate env.copyErr).2 ++
              (teardown reg requestID).2
      outcome := .errored
      registry := (teardown reg requestID).1
      stdinWritten := []
      halfClosed := false }
  | .ok containerID =>
    let createEffs := (CreateContainer env.language env.dockerCreate env.copyErr).2
    let reg1 := registerSession reg requestID containerID
    match env.attachErr with
    | some e =>
      { trace := [infoStarting, infoCreated,
                  { level := .ERROR,
                    message := "Failed to attach to the container logs: " ++ e }]
        effs := createEffs ++ (teardown reg1 requestID).2
        outcome := .errored
        registry := (teardown reg1 requestID).1
        stdinWritten := []
        halfClosed := false }
    | none =>
      match env.startErr with
      | some e =>
        { trace := [infoStarting, infoCreated,
                    { level := .ERROR,
                      message := "Failed to start the container: " ++ e }]
          effs := createEffs ++ [.start] ++ (teardown reg1 requestID).2
          outcome := .errored
          registry := (teardown reg1 requestID).1
          stdinWritten := []
          halfClosed := false }
      | none =>
        match (writeStdinLines env.stdin env.stdinWriteErr).2 with
        | some e =>
          { trace := [infoStarting, infoCreated,
                      { level := .ERROR,
                        message := "Failed to write to the container stdin: " ++ e }]
            effs := createEffs ++ [.start] ++ (teardown reg1 requestID).2
            outcome := .errored
            registry := (teardown reg1 requestID).1
            stdinWritten := (writeStdinLines env.stdin env.stdinWriteErr).1
            halfClosed := false }
        | none =>
          { trace := [infoStarting, infoCreated] ++
                     (runLoop initialLoopState env.schedule).trace
            effs := createEffs ++ [.start] ++
                    (runLoop initialLoopState env.schedule).effs ++
                    (teardown reg1 requestID).2
            outcome := (runLoop initialLoopState env.schedule).outcome
            registry := (teardown reg1 requestID).1
            stdinWritten := (writeStdinLines env.stdin env.stdinWriteErr).1
            halfClosed := true }

/-- Number of `ERROR`-level events in a trace. -/
def errorCount (trace : List RunResponseMessage) : Nat :=
  (trace.filter (fun m => m.level = MessageLevel.ERROR)).length

/-- Number of `EXIT_CODE`-level events in a trace. -/
def exitCodeCount (trace : List RunResponseMessage) : Nat :=
  (trace.filter (fun m => m.level = MessageLevel.EXIT_CODE)).length

/-- Select branches that neither end the session nor touch the status
channel: output lines, output channel closures, and a nil wait error. -/
def benignEvent : LoopEvent → Bool
  | .stdoutMsg _ => true
  | .stdoutClosed => true
  | .stderrMsg _ => true
  | .stderrClosed => true
  | .waitErr none => true
  | .waitErr (some _) => false
  | .ctxDone => false
  | .exitStatus _ => false

/-! ## Registry operation sequences (for the registry invariant)

The two maps are mutated in exactly two critical sections: the registration
at `server.go` lines 92–95 and the teardown deletion at lines 72–75; `Stop`
and the teardown's first section only read.  A history of the registry is a
sequence of these two mutations. -/

/-- One mutating critical section on the registry. -/
inductive RegistryOp where
  | register (requestID containerID : String)
  | unregister (requestID : String)
deriving DecidableEq

/-- Apply a history of critical sections to a registry. -/
def applyOps : List RegistryOp → Registry → Registry
  | [], reg => reg
  | .register requestID containerID :: rest, reg =>
    applyOps rest (registerSession reg requestID containerID)
  | .unregister requestID :: rest, reg =>
    applyOps rest (unregisterSession reg requestID)

/-- The two maps hold exactly the same key set. -/
def registryInv (reg : Registry) : Prop :=
  ∀ k, (reg.requests k).isSome = (reg.cancels k).isSome

/-- Modelled from the spec (§4.1 `Create`): the hardened security posture
the claim lists, as a predicate on the creation options.  "Non-root user"
is the dedicated `runner` user; the scratch area is the `/tmp` tmpfs with
the `rw,noexec,nosuid,size=64m` options; the file-descriptor and
output-file-size limits are the `nofile` and `fsize` ulimits. -/
def hardenedSecurityPosture (o : ContainerCreateOptions) : Prop :=
  o.config.user = "runner" ∧ o.config.user ≠ "root" ∧ o.config.user ≠ "" ∧
  o.config.networkDisabled = true ∧ o.hostConfig.networkMode = "none" ∧
  o.hostConfig.readonlyRootfs = true ∧
  o.hostConfig.tmpfs = [("/tmp", "rw,noexec,nosuid,size=64m")] ∧
  o.hostConfig.capDrop = ["ALL"] ∧
  "no-new-privileges" ∈ o.hostConfig.securityOpt ∧
  o.hostConfig.resources.pidsLimit = 64 ∧
  { name := "nofile", soft := 1024, hard := 1024 } ∈ o.hostConfig.resources.ulimits ∧
  { name := "fsize", soft := 100 * 1024 * 1024, hard := 100 * 1024 * 1024 } ∈
    o.hostConfig.resources.ulimits ∧
  o.hostConfig.resources.memory = 512 * 1024 * 1024 ∧
  o.hostConfig.resources.memorySwap = o.hostConfig.resources.memory ∧
  o.hostConfig.resources.nanoCPUs = 1000000000 ∧
  o.hostConfig.autoRemove = true

/-! ## Concrete environments used by witnesses and counterexamples -/

/-- A session whose external calls all succeed and whose program exits 0
after both output channels close. -/
def happyEnv : RunEnv :=
  { language := "dotnet"
    sourceCode := "Console.WriteLine(4);"
    timeoutSeconds := 5
    stdin := []
    dockerCreate := .ok "c1"
    copyErr := none
    attachErr := none
    startErr := none
    stdinWriteErr := none
    schedule := [.stdoutMsg "4", .stdoutClosed, .stderrClosed, .exitStatus 0] }

/-- A session whose program exits quickly but whose output channels are
still open when the deadline fires: the exit status is relayed, then
`ctx.Done()` wins the select before the channels close. -/
def exitThenTimeoutEnv : RunEnv :=
  { happyEnv with schedule := [.exitStatus 0, .ctxDone] }

/-- A session asking for an unregistered language. -/
def rubyEnv : RunEnv :=
  { happyEnv with language := "ruby" }

/-- A session that times out after one stdout line was relayed. -/
def timeoutEnv : RunEnv :=
  { happyEnv with schedule := [.stdoutMsg "working", .ctxDone] }

/-- A session with two stdin lines, all writes succeeding. -/
def stdinEnv : RunEnv :=
  { happyEnv with stdin := ["first", "second"] }

/-! ## Helper lemmas on traces and the loop -/

theorem errorCount_nil : errorCount [] = 0 := rfl

theorem errorCount_cons (m : RunResponseMessage) (tr : List RunResponseMessage) :
    errorCount (m :: tr) =
      (if m.level = MessageLevel.ERROR then 1 else 0) + errorCount tr := by
  simp only [errorCount, List.filter_cons]
  by_cases h : m.level = MessageLevel.ERROR <;> simp [h, Nat.add_comm]

theorem errorCount_append (a b : List RunResponseMessage) :
    errorCount (a ++ b) = errorCount a + errorCount b := by
  simp [errorCount, List.filter_append]

theorem exitCodeCount_nil : exitCodeCount [] = 0 := rfl

theorem exitCodeCount_cons (m : RunResponseMessage) (tr : List RunResponseMessage) :
    exitCodeCount (m :: tr) =
      (if m.level = MessageLevel.EXIT_CODE then 1 else 0) + exitCodeCount tr := by
  simp only [exitCodeCount, List.filter_cons]
  by_cases h : m.level = MessageLevel.EXIT_CODE <;> simp [h, Nat.add_comm]

theorem exitCodeCount_append (a b : List RunResponseMessage) :
    exitCodeCount (a ++ b) = exitCodeCount a + exitCodeCount b := by
  simp [exitCodeCount, List.filter_append]

/-- The loop sends at most one `ERROR` event: every branch that sends one
returns immediately. -/
theorem runLoop_errorCount_le_one (evs : List LoopEvent) (st : LoopState) :
    errorCount (runLoop st evs).trace ≤ 1 := by
  induction evs generalizing st with
  | nil => simp [runLoop, errorCount_nil]
  | cons ev rest ih =>
    by_cases ha : st.active
    · cases ev with
      | ctxDone => simp [runLoop, ha, timeoutMessage, errorCount_cons, errorCount_nil]
      | stdoutMsg line =>
        by_cases ho : st.stdoutOpen <;>
          simp [runLoop, ha, ho, LoopResult.push, errorCount_cons, ih]
      | stdoutClosed =>
        by_cases ho : st.stdoutOpen <;> simp [runLoop, ha, ho, ih]
      | stderrMsg line =>
        by_cases ho : st.stderrOpen <;>
          simp [runLoop, ha, ho, LoopResult.push, errorCount_cons, ih]
      | stderrClosed =>
        by_cases ho : st.stderrOpen <;> simp [runLoop, ha, ho, ih]
      | waitErr e =>
        by_cases ho : st.errorOpen
        · cases e <;> simp [runLoop, ha, ho, errorCount_cons, errorCount_nil, ih]
        · simp [runLoop, ha, ho, ih]
      | exitStatus code =>
        by_cases ho : st.statusOpen <;>
          simp [runLoop, ha, ho, LoopResult.push, errorCount_cons, exitCodeMessage, ih]
    · simp [runLoop, ha, errorCount_nil]

/-- Once the status channel is `nil`, no further `EXIT_CODE` event is sent. -/
theorem runLoop_exit_closed (evs : List LoopEvent) (st : LoopState)
    (h : st.statusOpen = false) :
    exitCodeCount (runLoop st evs).trace = 0 := by
  induction evs generalizing st with
  | nil => simp [runLoop, exitCodeCount_nil]
  | cons ev rest ih =>
    by_cases ha : st.active
    · cases ev with
      | ctxDone =>
        simp [runLoop, ha, timeoutMessage, exitCodeCount_cons, exitCodeCount_nil]
      | stdoutMsg line =>
        by_cases ho : st.stdoutOpen <;>
          simp [runLoop, ha, ho, LoopResult.push, exitCodeCount_cons, ih, h]
      | stdoutClosed =>
        by_cases ho : st.stdoutOpen <;> simp [runLoop, ha, ho, ih, h]
      | stderrMsg line =>
        by_cases ho : st.stderrOpen <;>
          simp [runLoop, ha, ho, LoopResult.push, exitCodeCount_cons, ih, h]
      | stderrClosed =>
        by_cases ho : st.stderrOpen <;> simp [runLoop, ha, ho, ih, h]
      | waitErr e =>
        by_cases ho : st.errorOpen
        · cases e <;>
            simp [runLoop, ha, ho, exitCodeCount_cons, exitCodeCount_nil, ih, h]
        · simp [runLoop, ha, ho, ih, h]
      | exitStatus code => simp [runLoop, ha, h, ih]
    · simp [runLoop, ha, exitCodeCount_nil]

/-- The loop sends at most one `EXIT_CODE` event. -/
theorem runLoop_exitCodeCount_le_one (evs : List LoopEvent) (st : LoopState) :
    exitCodeCount (runLoop st evs).trace ≤ 1 := by
  induction evs generalizing st with
  | nil => simp [runLoop, exitCodeCount_nil]
  | cons ev rest ih =>
    by_cases ha : st.active
    · cases ev with
      | ctxDone =>
        simp [runLoop, ha, timeoutMessage, exitCodeCount_cons, exitCodeCount_nil]
      | stdoutMsg line =>
        by_cases ho : st.stdoutOpen <;>
          simp [runLoop, ha, ho, LoopResult.push, exitCodeCount_cons, ih]
      | stdoutClosed =>
        by_cases ho : st.stdoutOpen <;> simp [runLoop, ha, ho, ih]
      | stderrMsg line =>
        by_cases ho : st.stderrOpen <;>
          simp [runLoop, ha, ho, LoopResult.push, exitCodeCount_cons, ih]
      | stderrClosed =>
        by_cases ho : st.stderrOpen <;> simp [runLoop, ha, ho, ih]
      | waitErr e =>
        by_cases ho : st.errorOpen
        · cases e <;>
            simp [runLoop, ha, ho, exitCodeCount_cons, exitCodeCount_nil, ih]
        · simp [runLoop, ha, ho, ih]
      | exitStatus code =>
        by_cases ho : st.statusOpen
        · simp [runLoop, ha, ho, LoopResult.push, exitCodeCount_cons, exitCodeMessage,
                runLoop_exit_closed]
        · simp [runLoop, ha, ho, ih]
    · simp [runLoop, ha, exitCodeCount_nil]

/-- Once the error channel is `nil`, the only branch that can still send an
`ERROR` event is the timeout branch, which returns `timedOut`. -/
theorem runLoop_error_closed (evs : List LoopEvent) (st : LoopState)
    (h : st.errorOpen = false)
    (he : 1 ≤ errorCount (runLoop st evs).trace) :
    (runLoop st evs).outcome = .timedOut := by
  induction evs generalizing st with
  | nil => simp [runLoop, errorCount_nil] at he
  | cons ev rest ih =>
    by_cases ha : st.active
    · cases ev with
      | ctxDone => simp [runLoop, ha]
      | stdoutMsg line =>
        by_cases ho : st.stdoutOpen <;>
          · simp [runLoop, ha, ho, LoopResult.push, errorCount_cons] at he ⊢
            exact ih _ h he
      | stdoutClosed =>
        by_cases ho : st.stdoutOpen <;>
          · simp [runLoop, ha, ho] at he ⊢
            exact ih _ h he
      | stderrMsg line =>
        by_cases ho : st.stderrOpen <;>
          · simp [runLoop, ha, ho, LoopResult.push, errorCount_cons] at he ⊢
            exact ih _ h he
      | stderrClosed =>
        by_cases ho : st.stderrOpen <;>
          · simp [runLoop, ha, ho] at he ⊢
            exact ih _ h he
      | waitErr e =>
        simp [runLoop, ha, h] at he ⊢
        exact ih _ h he
      | exitStatus code =>
        by_cases ho : st.statusOpen <;>
          · simp [runLoop, ha, ho, LoopResult.push, errorCount_cons,
                  exitCodeMessage] at he ⊢
            exact ih _ (by simp [h]) he
    · simp [runLoop, ha, errorCount_nil] at he


/-- If the loop sent both an `ERROR` and an `EXIT_CODE` event, it ended on
the timeout branch: the lifecycle-error branch sends `ERROR` only while the
error channel is live, and relaying the exit status sets it to `nil`. -/
theorem runLoop_both_timedOut (evs : List LoopEvent) (st : LoopState)
    (he : 1 ≤ errorCount (runLoop st evs).trace)
    (hx : 1 ≤ exitCodeCount (runLoop st evs).trace) :
    (runLoop st evs).outcome = .timedOut := by
  induction evs generalizing st with
  | nil => simp [runLoop, errorCount_nil] at he
  | cons ev rest ih =>
    by_cases ha : st.active
    · cases ev with
      | ctxDone => simp [runLoop, ha]
      | stdoutMsg line =>
        by_cases ho : st.stdoutOpen <;>
          · simp [runLoop, ha, ho, LoopResult.push, errorCount_cons,
                  exitCodeCount_cons] at he hx ⊢
            exact ih _ he hx
      | stdoutClosed =>
        by_cases ho : st.stdoutOpen <;>
          · simp [runLoop, ha, ho] at he hx ⊢
            exact ih _ he hx
      | stderrMsg line =>
        by_cases ho : st.stderrOpen <;>
          · simp [runLoop, ha, ho, LoopResult.push, errorCount_cons,
                  exitCodeCount_cons] at he hx ⊢
            exact ih _ he hx
      | stderrClosed =>
        by_cases ho : st.stderrOpen <;>
          · simp [runLoop, ha, ho] at he hx ⊢
            exact ih _ he hx
      | waitErr e =>
        by_cases ho : st.errorOpen
        · cases e with
          | some msg =>
            simp [runLoop, ha, ho, exitCodeCount_cons, exitCodeCount_nil] at hx
          | none =>
            simp [runLoop, ha, ho] at he hx ⊢
            exact ih _ he hx
        · simp [runLoop, ha, ho] at he hx ⊢
          exact ih _ he hx
      | exitStatus code =>
        by_cases ho : st.statusOpen
        · simp [runLoop, ha, ho, LoopResult.push, errorCount_cons,
                exitCodeMessage] at he ⊢
          exact runLoop_error_closed rest _ rfl he
        · simp [runLoop, ha, ho] at he hx ⊢
          exact ih _ he hx
    · simp [runLoop, ha, errorCount_nil] at he

/-- While the status channel is live, the loop guard can only become false
after the exit status has been relayed: a `completed` loop sent an
`EXIT_CODE` event. -/
theorem runLoop_completed_exit (evs : List LoopEvent) (st : LoopState)
    (hs : st.statusOpen = true)
    (hc : (runLoop st evs).outcome = .completed) :
    1 ≤ exitCodeCount (runLoop st evs).trace := by
  induction evs generalizing st with
  | nil =>
    have ha : st.active = true := by simp [LoopState.active, hs]
    simp [runLoop, ha] at hc
  | cons ev rest ih =>
    have ha : st.active = true := by simp [LoopState.active, hs]
    cases ev with
    | ctxDone => simp [runLoop, ha] at hc
    | stdoutMsg line =>
      by_cases ho : st.stdoutOpen <;>
        · simp [runLoop, ha, ho, LoopResult.push, exitCodeCount_cons] at hc ⊢
          exact ih _ hs hc
    | stdoutClosed =>
      by_cases ho : st.stdoutOpen <;>
        · simp [runLoop, ha, ho] at hc ⊢
          exact ih _ (by simp [hs]) hc
    | stderrMsg line =>
      by_cases ho : st.stderrOpen <;>
        · simp [runLoop, ha, ho, LoopResult.push, exitCodeCount_cons] at hc ⊢
          exact ih _ hs hc
    | stderrClosed =>
      by_cases ho : st.stderrOpen <;>
        · simp [runLoop, ha, ho] at hc ⊢
          exact ih _ (by simp [hs]) hc
    | waitErr e =>
      by_cases ho : st.errorOpen
      · cases e with
        | some msg => simp [runLoop, ha, ho] at hc
        | none =>
          simp [runLoop, ha, ho] at hc ⊢
          exact ih _ hs hc
      · simp [runLoop, ha, ho] at hc ⊢
        exact ih _ hs hc
    | exitStatus code =>
      by_cases ho : st.statusOpen
      · simp [runLoop, ha, ho, LoopResult.push, exitCodeCount_cons, exitCodeMessage]
      · simp [hs] at ho

/-- A loop that ended `timedOut` or `errored` sent an `ERROR` event. -/
theorem runLoop_failure_error (evs : List LoopEvent) (st : LoopState)
    (h : (runLoop st evs).outcome = .timedOut ∨ (runLoop st evs).outcome = .errored) :
    1 ≤ errorCount (runLoop st evs).trace := by
  induction evs generalizing st with
  | nil =>
    by_cases ha : st.active <;> simp [runLoop, ha] at h
  | cons ev rest ih =>
    by_cases ha : st.active
    · cases ev with
      | ctxDone =>
        simp [runLoop, ha, timeoutMessage, errorCount_cons, errorCount_nil]
      | stdoutMsg line =>
        by_cases ho : st.stdoutOpen <;>
          · simp [runLoop, ha, ho, LoopResult.push, errorCount_cons] at h ⊢
            exact ih _ h
      | stdoutClosed =>
        by_cases ho : st.stdoutOpen <;>
          · simp [runLoop, ha, ho] at h ⊢
            exact ih _ h
      | stderrMsg line =>
        by_cases ho : st.stderrOpen <;>
          · simp [runLoop, ha, ho, LoopResult.push, errorCount_cons] at h ⊢
            exact ih _ h
      | stderrClosed =>
        by_cases ho : st.stderrOpen <;>
          · simp [runLoop, ha, ho] at h ⊢
            exact ih _ h
      | waitErr e =>
        by_cases ho : st.errorOpen
        · cases e with
          | some msg => simp [runLoop, ha, ho, errorCount_cons, errorCount_nil]
          | none =>
            simp [runLoop, ha, ho] at h ⊢
            exact ih _ h
        · simp [runLoop, ha, ho] at h ⊢
          exact ih _ h
      | exitStatus code =>
        by_cases ho : st.statusOpen <;>
          · simp [runLoop, ha, ho, LoopResult.push, errorCount_cons,
                  exitCodeMessage] at h ⊢
            exact ih _ h
    · simp [runLoop, ha] at h

/-- If only benign branches fire before `ctx.Done()`, the loop kills the
container, sends the timeout error as its last event, and returns
`timedOut`; the events before it are neither `ERROR` nor `EXIT_CODE`. -/
theorem runLoop_benign_then_ctxDone (pre post : List LoopEvent) (st : LoopState)
    (hs : st.statusOpen = true)
    (hb : ∀ e ∈ pre, benignEvent e = true) :
    ∃ tr, runLoop st (pre ++ LoopEvent.ctxDone :: post) =
        { trace := tr ++ [timeoutMessage], effs := [.kill], outcome := .timedOut } ∧
      errorCount tr = 0 ∧ exitCodeCount tr = 0 := by
  induction pre generalizing st with
  | nil =>
    have ha : st.active = true := by simp [LoopState.active, hs]
    exact ⟨[], by simp [runLoop, ha], rfl, rfl⟩
  | cons e pre ih =>
    have ha : st.active = true := by simp [LoopState.active, hs]
    have hbe : benignEvent e = true := hb e (List.mem_cons_self e pre)
    have hbrest : ∀ x ∈ pre, benignEvent x = true :=
      fun x hx => hb x (List.mem_cons_of_mem e hx)
    cases e with
    | ctxDone => simp [benignEvent] at hbe
    | exitStatus code => simp [benignEvent] at hbe
    | stdoutMsg line =>
      obtain ⟨tr, heq, he, hx⟩ := ih st hs hbrest
      by_cases ho : st.stdoutOpen
      · refine ⟨{ level := .STDOUT, message := line } :: tr, ?_, ?_, ?_⟩
        · simp [runLoop, ha, ho, List.cons_append, heq, LoopResult.push]
        · simp [errorCount_cons, he]
        · simp [exitCodeCount_cons, hx]
      · exact ⟨tr, by simp [runLoop, ha, ho, List.cons_append, heq], he, hx⟩
    | stdoutClosed =>
      by_cases ho : st.stdoutOpen
      · obtain ⟨tr, heq, he, hx⟩ := ih { st with stdoutOpen := false } (by simp [hs]) hbrest
        exact ⟨tr, by simp [runLoop, ha, ho, List.cons_append, heq], he, hx⟩
      · obtain ⟨tr, heq, he, hx⟩ := ih st hs hbrest
        exact ⟨tr, by simp [runLoop, ha, ho, List.cons_append, heq], he, hx⟩
    | stderrMsg line =>
      obtain ⟨tr, heq, he, hx⟩ := ih st hs hbrest
      by_cases ho : st.stderrOpen
      · refine ⟨{ level := .STDERR, message := line } :: tr, ?_, ?_, ?_⟩
        · simp [runLoop, ha, ho, List.cons_append, heq, LoopResult.push]
        · simp [errorCount_cons, he]
        · simp [exitCodeCount_cons, hx]
      · exact ⟨tr, by simp [runLoop, ha, ho, List.cons_append, heq], he, hx⟩
    | stderrClosed =>
      by_cases ho : st.stderrOpen
      · obtain ⟨tr, heq, he, hx⟩ := ih { st with stderrOpen := false } (by simp [hs]) hbrest
        exact ⟨tr, by simp [runLoop, ha, ho, List.cons_append, heq], he, hx⟩
      · obtain ⟨tr, heq, he, hx⟩ := ih st hs hbrest
        exact ⟨tr, by simp [runLoop, ha, ho, List.cons_append, heq], he, hx⟩
    | waitErr e' =>
      cases e' with
      | some msg => simp [benignEvent] at hbe
      | none =>
        obtain ⟨tr, heq, he, hx⟩ := ih st hs hbrest
        by_cases ho : st.errorOpen <;>
          exact ⟨tr, by simp [runLoop, ha, ho, List.cons_append, heq], he, hx⟩

theorem unregisterSession_requests_self (reg : Registry) (requestID : String) :
    (unregisterSession reg requestID).requests requestID = none := by
  simp [unregisterSession]

theorem unregisterSession_cancels_self (reg : Registry) (requestID : String) :
    (unregisterSession reg requestID).cancels requestID = none := by
  simp [unregisterSession]

/-- Both arms of the teardown leave the registry with the request ID deleted
from both maps. -/
theorem teardown_fst (reg : Registry) (requestID : String) :
    (teardown reg requestID).1 = unregisterSession reg requestID := by
  unfold teardown
  split <;> rfl

/-- The teardown never creates a container. -/
theorem teardown_no_create (reg : Registry) (requestID : String) :
    Eff.create ∉ (teardown reg requestID).2 := by
  unfold teardown
  split <;> simp

/-- Every path of `Run` ends in the deferred teardown, so the final registry
never holds the request ID in either map. -/
theorem runSession_registry_cleared (env : RunEnv) (requestID : String) (reg : Registry) :
    (runSession env requestID reg).registry.requests requestID = none ∧
    (runSession env requestID reg).registry.cancels requestID = none := by
  constructor <;>
    · unfold runSession
      repeat' split
      all_goals
        simp [teardown_fst, unregisterSession_requests_self, unregisterSession_cancels_self]

/-- The stdin loop with no failing write sends every line, newline
terminated, in order. -/
theorem writeStdinLines_none (lines : List String) :
    writeStdinLines lines none = (lines.map (fun l => l ++ "\n"), none) := by
  induction lines with
  | nil => rfl
  | cons l rest ih => simp [writeStdinLines, ih]

/-- The stdin loop stops at the first failing write: exactly the earlier
lines were written. -/
theorem writeStdinLines_fail (lines : List String) (k : Nat) (e : String)
    (hk : k < lines.length) :
    writeStdinLines lines (some (k, e)) =
      ((lines.take k).map (fun l => l ++ "\n"), some e) := by
  induction lines generalizing k with
  | nil => simp at hk
  | cons l rest ih =>
    cases k with
    | zero => simp [writeStdinLines]
    | succ n => simp [writeStdinLines, ih n (by simpa using hk)]

theorem registryInv_empty : registryInv emptyRegistry := by
  intro k
  simp [emptyRegistry]

theorem registryInv_register (reg : Registry) (h : registryInv reg)
    (requestID containerID : String) :
    registryInv (registerSession reg requestID containerID) := by
  intro k
  by_cases hk : k = requestID <;> simp [registerSession, hk, h k]

theorem registryInv_unregister (reg : Registry) (h : registryInv reg)
    (requestID : String) :
    registryInv (unregisterSession reg requestID) := by
  intro k
  by_cases hk : k = requestID <;> simp [unregisterSession, hk, h k]

/-- The key-set invariant is preserved by every history of critical
sections. -/
theorem registryInv_applyOps (ops : List RegistryOp) (reg : Registry)
    (h : registryInv reg) : registryInv (applyOps ops reg) := by
  induction ops generalizing reg with
  | nil => exact h
  | cons op rest ih =>
    cases op with
    | register requestID containerID =>
      exact ih _ (registryInv_register reg h requestID containerID)
    | unregister requestID =>
      exact ih _ (registryInv_unregister reg h requestID)

/-! ## Claims -/

/-- C4: for every successfully created sandbox (i.e. whenever the language
resolves to a registered technology), the creation options apply the full
hardened security posture: non-root `runner` user, network disabled,
read-only root filesystem with a writable `noexec,nosuid` tmpfs scratch
area, all capabilities dropped, no-new-privileges, a process-count limit of
64, a 1024 open-file-descriptor limit, a 100 MB output-file-size limit,
512 MB memory with `MemorySwap` equal to the memory limit, a bounded CPU
share of one CPU, and automatic removal on exit. -/
theorem c4_hardened_security_posture (language : String) (technology : Technology)
    (h : imagesMapping language = some technology) :
    hardenedSecurityPosture (containerOptions technology) := by
  unfold hardenedSecurityPosture containerOptions
  norm_num
  decide

/-- Witness for C4 at the registered `dotnet` language. -/
theorem c4_hardened_security_posture_witness :
    hardenedSecurityPosture (containerOptions DotNetTechnology) :=
  c4_hardened_security_posture "dotnet" DotNetTechnology (by simp [imagesMapping])

/-- C7 counterexample: with the stdout byte stream ending at instant 1 and
the stderr byte stream still open until instant 5, the stdout line channel
is only closed at instant 5 — not when its own stream reached end-of-input,
contrary to the claimed independence. -/
theorem c7_counterexample :
    outChCloseTime 1 5 = 5 ∧ outChCloseTimeSpec 1 5 = 1 ∧
    outChCloseTime 1 5 ≠ outChCloseTimeSpec 1 5 := by
  simp [outChCloseTime, outChCloseTimeSpec, wgWaitTime]

/-- C7 amended: the two line channels are closed together, after BOTH byte
streams have reached end-of-input (the deferred `close`s run only once
`wg.Wait()` has joined both scanner goroutines); the stdout channel closes
at its own stream's end-of-input instant only when stderr ended no later. -/
theorem c7_channels_close_together (stdoutEOF stderrEOF : Nat) :
    outChCloseTime stdoutEOF stderrEOF = max stdoutEOF stderrEOF ∧
    errChCloseTime stdoutEOF stderrEOF = max stdoutEOF stderrEOF ∧
    stdoutEOF ≤ outChCloseTime stdoutEOF stderrEOF ∧
    stderrEOF ≤ outChCloseTime stdoutEOF stderrEOF ∧
    (outChCloseTime stdoutEOF stderrEOF = outChCloseTimeSpec stdoutEOF stderrEOF ↔
      stderrEOF ≤ stdoutEOF) := by
  unfold outChCloseTime errChCloseTime outChCloseTimeSpec wgWaitTime
  refine ⟨rfl, rfl, le_max_left _ _, le_max_right _ _, ?_⟩
  omega

/-- C8 counterexample: with `now = 7` and `timeoutSeconds = 0` the deadline
installed by `context.WithTimeout` is exactly `7 = now` — the non-positive
timeout is used as-is, the deadline is not moved into the future (no
clamping) and the computation performs no rejection (it yields a deadline
for every input); with `timeoutSeconds = -3` the deadline is even strictly
in the past. -/
theorem c8_counterexample :
    runDeadline 7 0 = 7 ∧ ¬ (7 : Int) < runDeadline 7 0 ∧
    runDeadline 7 (-3) = 7 - 3 * 1000000000 ∧ runDeadline 7 (-3) < 7 := by
  refine ⟨rfl, ?_, ?_, ?_⟩ <;> norm_num [runDeadline, runTimeout]

/-- C8 amended: on `Run` entry the absolute deadline is `now` plus the
requested timeout (in nanoseconds), exactly as requested; a non-positive
timeout is neither rejected nor clamped — it is used as-is, so the deadline
is then at or before `now` and the session's context starts out already
expired. -/
theorem c8_deadline_unclamped (now timeoutSeconds : Int)
    (h : timeoutSeconds ≤ 0) :
    runDeadline now timeoutSeconds = now + timeoutSeconds * 1000000000 ∧
    runDeadline now timeoutSeconds ≤ now := by
  refine ⟨rfl, ?_⟩
  unfold runDeadline runTimeout
  nlinarith

/-- Witness for C8 amended at `now = 7`, `timeoutSeconds = 0`. -/
theorem c8_deadline_unclamped_witness :
    runDeadline 7 0 = 7 + 0 * 1000000000 ∧
    runDeadline 7 0 ≤ 7 :=
  c8_deadline_unclamped 7 0 (by norm_num)

/-- C6 counterexample: killing an already-exited (auto-removed) sandbox
surfaces the runtime's not-found error unchanged — `KillContainer` does not
treat not-found as success — so a forced `Stop` on a registered session
whose container already exited returns `Internal`, not success. -/
theorem c6_counterexample :
    KillContainer (some DockerErr.noSuchContainer) = some DockerErr.noSuchContainer ∧
    Stop (registerSession emptyRegistry "r1" "c1") "r1" true
        (some DockerErr.noSuchContainer) =
      .internalError DockerErr.noSuchContainer := by
  constructor <;> rfl

/-- C6 amended: `KillContainer` propagates every runtime error, including
not-found, unchanged; consequently `Stop(force=true)` on a registered
session returns success exactly when the kill returns no error, and
`InternalError` for ANY kill error — not-found included. -/
theorem c6_kill_not_idempotent (reg : Registry) (requestID containerID : String)
    (killResult : Option DockerErr)
    (h : reg.requests requestID = some containerID) :
    KillContainer killResult = killResult ∧
    Stop reg requestID true killResult =
      (match killResult with
       | some e => .internalError e
       | none => .ok false) := by
  refine ⟨rfl, ?_⟩
  unfold Stop
  rw [h]
  cases killResult <;> rfl

/-- Witness for C6 amended on a freshly registered session. -/
theorem c6_kill_not_idempotent_witness :
    KillContainer (some DockerErr.noSuchContainer) = some DockerErr.noSuchContainer ∧
    Stop (registerSession emptyRegistry "r2" "c2") "r2" true
        (some DockerErr.noSuchContainer) =
      .internalError DockerErr.noSuchContainer :=
  c6_kill_not_idempotent (registerSession emptyRegistry "r2" "c2") "r2" "c2"
    (some DockerErr.noSuchContainer) (by simp [registerSession])

/-- C10: starting from the empty registry, after any history of the two
mutating critical sections (registration inserts into both maps,
teardown-deletion deletes from both, each under the single mutex), the two
maps hold exactly the same key set; hence `Stop` never observes a container
ID without its cancel function. -/
theorem c10_registry_maps_agree (ops : List RegistryOp) :
    registryInv (applyOps ops emptyRegistry) ∧
    ∀ requestID containerID,
      (applyOps ops emptyRegistry).requests requestID = some containerID →
      ((applyOps ops emptyRegistry).cancels requestID).isSome = true := by
  have hinv := registryInv_applyOps ops emptyRegistry registryInv_empty
  refine ⟨hinv, fun requestID containerID h => ?_⟩
  have := hinv requestID
  rw [h] at this
  exact this.symm

/-- Witness for C10 on a register-unregister-register history. -/
theorem c10_registry_maps_agree_witness :
    registryInv
      (applyOps [.register "a" "c1", .unregister "a", .register "b" "c2"]
        emptyRegistry) ∧
    ((applyOps [.register "a" "c1", .unregister "a", .register "b" "c2"]
        emptyRegistry).cancels "b").isSome = true :=
  ⟨(c10_registry_maps_agree _).1,
   (c10_registry_maps_agree
      [.register "a" "c1", .unregister "a", .register "b" "c2"]).2 "b" "c2"
     (by simp [applyOps, registerSession, unregisterSession, emptyRegistry])⟩

/-- C3: whichever terminal path a session takes, the deferred teardown
leaves the request ID absent from both registry maps, a subsequent `Stop`
on that request ID returns `NotFound`, and the deletion is idempotent —
racing terminal paths that delete again change nothing. -/
theorem c3_unregistered_after_teardown (env : RunEnv) (requestID : String)
    (reg : Registry) (force : Bool) (killResult : Option DockerErr) :
    (runSession env requestID reg).registry.requests requestID = none ∧
    (runSession env requestID reg).registry.cancels requestID = none ∧
    Stop (runSession env requestID reg).registry requestID force killResult =
      .notFound ∧
    unregisterSession (unregisterSession reg requestID) requestID =
      unregisterSession reg requestID := by
  obtain ⟨h1, h2⟩ := runSession_registry_cleared env requestID reg
  refine ⟨h1, h2, ?_, ?_⟩
  · unfold Stop
    rw [h1]
  · unfold unregisterSession
    simp only [Registry.mk.injEq]
    constructor <;> funext k <;> by_cases hk : k = requestID <;> simp [hk]

/-- C5: a `Run` request whose language has no registered technology fails
inside `CreateContainer` before `ContainerCreate` is ever invoked: the
stream is exactly the starting `Info` followed by a single `Error` citing
the unsupported language, with no further events, and no container-creation
call is made. -/
theorem c5_unsupported_language (env : RunEnv) (requestID : String) (reg : Registry)
    (h : imagesMapping env.language = none) :
    (runSession env requestID reg).trace =
      [infoStarting,
       { level := .ERROR,
         message := "Failed to create the container: " ++
           "the specified language is not supported" }] ∧
    Eff.create ∉ (runSession env requestID reg).effs ∧
    errorCount (runSession env requestID reg).trace = 1 := by
  have hc : CreateContainer env.language env.dockerCreate env.copyErr =
      (.error "the specified language is not supported", []) := by
    unfold CreateContainer
    rw [h]
  refine ⟨?_, ?_, ?_⟩ <;>
    simp [runSession, hc, errorCount_cons, errorCount_nil, infoStarting,
          teardown_no_create]

/-- Witness for C5 at `language = "ruby"`. -/
theorem c5_unsupported_language_witness :
    (runSession rubyEnv "r" emptyRegistry).trace =
      [infoStarting,
       { level := .ERROR,
         message := "Failed to create the container: " ++
           "the specified language is not supported" }] ∧
    Eff.create ∉ (runSession rubyEnv "r" emptyRegistry).effs ∧
    errorCount (runSession rubyEnv "r" emptyRegistry).trace = 1 :=
  c5_unsupported_language rubyEnv "r" emptyRegistry (by simp [rubyEnv, happyEnv, imagesMapping])

/-- C9: after the sandbox is started, every provided stdin line is written
newline-terminated in submission order and stdin is then half-closed
(`CloseWrite` on the hijacked connection); if the `k`-th write fails, only
the earlier lines were written, an `Error` event is emitted as the last
event, and the session proceeds to teardown (the request ID ends up
unregistered). -/
theorem c9_stdin_lines (env : RunEnv) (requestID : String) (reg : Registry)
    (containerID : String)
    (hcr : (CreateContainer env.language env.dockerCreate env.copyErr).1 =
      .ok containerID)
    (hat : env.attachErr = none)
    (hst : env.startErr = none) :
    (env.stdinWriteErr = none →
      (runSession env requestID reg).stdinWritten =
        env.stdin.map (fun l => l ++ "\n") ∧
      (runSession env requestID reg).halfClosed = true) ∧
    (∀ k e, env.stdinWriteErr = some (k, e) → k < env.stdin.length →
      (runSession env requestID reg).stdinWritten =
        (env.stdin.take k).map (fun l => l ++ "\n") ∧
      (runSession env requestID reg).halfClosed = false ∧
      (runSession env requestID reg).trace =
        [infoStarting, infoCreated,
         { level := .ERROR,
           message := "Failed to write to the container stdin: " ++ e }] ∧
      (runSession env requestID reg).outcome = .errored ∧
      (runSession env requestID reg).registry.requests requestID = none) := by
  constructor
  · intro hw
    have hwl := writeStdinLines_none env.stdin
    constructor <;> simp [runSession, hcr, hat, hst, hw, hwl]
  · intro k e hw hk
    have hwl := writeStdinLines_fail env.stdin k e hk
    refine ⟨?_, ?_, ?_, ?_, ?_⟩ <;>
      simp [runSession, hcr, hat, hst, hw, hwl, teardown_fst,
            unregisterSession_requests_self]

/-- Witness for C9 with two stdin lines and no failure. -/
theorem c9_stdin_lines_witness :
    (stdinEnv.stdinWriteErr = none →
      (runSession stdinEnv "r" emptyRegistry).stdinWritten =
        stdinEnv.stdin.map (fun l => l ++ "\n") ∧
      (runSession stdinEnv "r" emptyRegistry).halfClosed = true) ∧
    (∀ k e, stdinEnv.stdinWriteErr = some (k, e) → k < stdinEnv.stdin.length →
      (runSession stdinEnv "r" emptyRegistry).stdinWritten =
        (stdinEnv.stdin.take k).map (fun l => l ++ "\n") ∧
      (runSession stdinEnv "r" emptyRegistry).halfClosed = false ∧
      (runSession stdinEnv "r" emptyRegistry).trace =
        [infoStarting, infoCreated,
         { level := .ERROR,
           message := "Failed to write to the container stdin: " ++ e }] ∧
      (runSession stdinEnv "r" emptyRegistry).outcome = .errored ∧
      (runSession stdinEnv "r" emptyRegistry).registry.requests "r" = none) :=
  c9_stdin_lines stdinEnv "r" emptyRegistry "c1"
    (by simp [stdinEnv, happyEnv, CreateContainer, imagesMapping]) rfl rfl

/-- C2: a session whose external calls all succeed and whose select loop
sees only output lines, output closures and nil wait errors until
`ctx.Done()` fires (the program outlives the deadline) emits exactly one
`ERROR` event — the final "Execution timed out" message — no `EXIT_CODE`
event, and has issued a kill of the sandbox by session end. -/
theorem c2_timeout_one_error_no_exit (env : RunEnv) (requestID : String)
    (reg : Registry) (containerID : String) (pre post : List LoopEvent)
    (hcr : (CreateContainer env.language env.dockerCreate env.copyErr).1 =
      .ok containerID)
    (hat : env.attachErr = none)
    (hst : env.startErr = none)
    (hw : (writeStdinLines env.stdin env.stdinWriteErr).2 = none)
    (hsched : env.schedule = pre ++ LoopEvent.ctxDone :: post)
    (hb : ∀ e ∈ pre, benignEvent e = true) :
    ∃ tr,
      (runSession env requestID reg).trace =
        [infoStarting, infoCreated] ++ tr ++ [timeoutMessage] ∧
      errorCount tr = 0 ∧ exitCodeCount tr = 0 ∧
      errorCount (runSession env requestID reg).trace = 1 ∧
      exitCodeCount (runSession env requestID reg).trace = 0 ∧
      Eff.kill ∈ (runSession env requestID reg).effs ∧
      (runSession env requestID reg).outcome = .timedOut := by
  obtain ⟨tr, hloop, he, hx⟩ :=
    runLoop_benign_then_ctxDone pre post initialLoopState rfl hb
  rw [← hsched] at hloop
  refine ⟨tr, ?_, he, hx, ?_, ?_, ?_, ?_⟩ <;>
    simp [runSession, hcr, hat, hst, hw, hloop, errorCount_append, errorCount_cons,
          errorCount_nil, exitCodeCount_append, exitCodeCount_cons, exitCodeCount_nil,
          he, hx, infoStarting, infoCreated, timeoutMessage]

/-- Witness for C2: one stdout line, then the deadline fires. -/
theorem c2_timeout_one_error_no_exit_witness :
    ∃ tr,
      (runSession timeoutEnv "r" emptyRegistry).trace =
        [infoStarting, infoCreated] ++ tr ++ [timeoutMessage] ∧
      errorCount tr = 0 ∧ exitCodeCount tr = 0 ∧
      errorCount (runSession timeoutEnv "r" emptyRegistry).trace = 1 ∧
      exitCodeCount (runSession timeoutEnv "r" emptyRegistry).trace = 0 ∧
      Eff.kill ∈ (runSession timeoutEnv "r" emptyRegistry).effs ∧
      (runSession timeoutEnv "r" emptyRegistry).outcome = .timedOut :=
  c2_timeout_one_error_no_exit timeoutEnv "r" emptyRegistry "c1"
    [.stdoutMsg "working"] []
    (by simp [timeoutEnv, happyEnv, CreateContainer, imagesMapping]) rfl rfl rfl rfl
    (by intro e he; simp at he; rw [he]; rfl)

/-- C1 counterexample: when the program exits before the deadline but the
output channels are still open when `ctx.Done()` fires, the stream carries
BOTH an `EXIT_CODE` event and a subsequent timeout `ERROR` event on a
terminating (non-blocked) session — refuting "never both". -/
theorem c1_counterexample :
    1 ≤ errorCount (runSession exitThenTimeoutEnv "r" emptyRegistry).trace ∧
    1 ≤ exitCodeCount (runSession exitThenTimeoutEnv "r" emptyRegistry).trace ∧
    (runSession exitThenTimeoutEnv "r" emptyRegistry).outcome ≠ .blocked := by
  refine ⟨?_, ?_, ?_⟩ <;> decide

/-- C1 amended: every terminating (non-blocked) session emits at least one
terminal event (`ERROR` or `EXIT_CODE`), at most one of each; when both
occur the session is necessarily on the timeout path (the deadline fired
after the exit status was relayed but before the output channels closed),
where the `ERROR` follows the `EXIT_CODE`.  "Exactly one terminal, never
both" fails only in that exit-then-timeout race. -/
theorem c1_terminal_events (env : RunEnv) (requestID : String) (reg : Registry)
    (h : (runSession env requestID reg).outcome ≠ .blocked) :
    1 ≤ errorCount (runSession env requestID reg).trace +
        exitCodeCount (runSession env requestID reg).trace ∧
    errorCount (runSession env requestID reg).trace ≤ 1 ∧
    exitCodeCount (runSession env requestID reg).trace ≤ 1 ∧
    (1 ≤ errorCount (runSession env requestID reg).trace →
     1 ≤ exitCodeCount (runSession env requestID reg).trace →
     (runSession env requestID reg).outcome = .timedOut) := by
  rcases hcr : (CreateContainer env.language env.dockerCreate env.copyErr).1 with e | cid
  · simp [runSession, hcr, errorCount_cons, errorCount_nil, exitCodeCount_cons,
          exitCodeCount_nil, infoStarting]
  · rcases hat : env.attachErr with _ | e
    · rcases hst : env.startErr with _ | e
      · rcases hw : (writeStdinLines env.stdin env.stdinWriteErr).2 with _ | e
        · simp only [runSession, hcr, hat, hst, hw] at h ⊢
          simp [errorCount_append, errorCount_cons, errorCount_nil,
                exitCodeCount_append, exitCodeCount_cons, exitCodeCount_nil,
                infoStarting, infoCreated] at h ⊢
          constructor
          · rcases ho : (runLoop initialLoopState env.schedule).outcome with _ | _ | _ | _
            · have := runLoop_completed_exit env.schedule initialLoopState rfl ho
              omega
            · have := runLoop_failure_error env.schedule initialLoopState (Or.inl ho)
              omega
            · have := runLoop_failure_error env.schedule initialLoopState (Or.inr ho)
              omega
            · exact absurd ho h
          refine ⟨runLoop_errorCount_le_one env.schedule initialLoopState,
                  runLoop_exitCodeCount_le_one env.schedule initialLoopState,
                  fun he hx =>
                    runLoop_both_timedOut env.schedule initialLoopState he hx⟩
        · simp [runSession, hcr, hat, hst, hw, errorCount_cons, errorCount_nil,
                exitCodeCount_cons, exitCodeCount_nil, infoStarting, infoCreated]
      · simp [runSession, hcr, hat, hst, errorCount_cons, errorCount_nil,
              exitCodeCount_cons, exitCodeCount_nil, infoStarting, infoCreated]
    · simp [runSession, hcr, hat, errorCount_cons, errorCount_nil,
            exitCodeCount_cons, exitCodeCount_nil, infoStarting, infoCreated]

/-- Witness for C1 amended on the all-success, exit-0 session. -/
theorem c1_terminal_events_witness :
    1 ≤ errorCount (runSession happyEnv "r" emptyRegistry).trace +
        exitCodeCount (runSession happyEnv "r" emptyRegistry).trace ∧
    errorCount (runSession happyEnv "r" emptyRegistry).trace ≤ 1 ∧
    exitCodeCount (runSession happyEnv "r" emptyRegistry).trace ≤ 1 ∧
    (1 ≤ errorCount (runSession happyEnv "r" emptyRegistry).trace →
     1 ≤ exitCodeCount (runSession happyEnv "r" emptyRegistry).trace →
     (runSession happyEnv "r" emptyRegistry).outcome = .timedOut) :=
  c1_terminal_events happyEnv "r" emptyRegistry (by decide)

end CodecellRunner
